import Mathlib

/-!
Verification of the resilient command/control channel of the
digitalarchitects backend: the WebSocket client manager
(PythonBackend/core/websocketManager.py), the message validator
(PythonBackend/middleware/message_validator.py) and the command validator
(PythonBackend/middleware/error_handler.py), shallowly embedded as pure
Lean functions over an explicit manager state and a transport oracle.

Modelling conventions:
- Python dictionaries are association lists with first-key-wins lookup
  (Python dict keys are unique, so this is faithful).
- Python values stored in messages are modelled by the inductive `JValue`.
- Async effects (socket connect, send, recv) are resolved by an explicit
  `TransportOracle` argument: each embedded method is a pure function of
  the manager state, the oracle and its arguments, returning the new state
  together with the list of commands that were written to the live socket.
- Where the Python class body defines the same method twice, the SECOND
  definition is the effective one (later `def` in a class body rebinds the
  attribute); the first definition is dead code. Both are embedded where a
  claim refers to them, with the dead one suffixed `_first_def`.
-/

namespace DigitalArchitects

/-- Python values as stored in message dictionaries. -/
inductive JValue where
  | jnull
  | jbool (b : Bool)
  | jint (n : Int)
  | jstr (s : String)
  | jarr (elems : List JValue)
  | jobj (fields : List (String × JValue))

/-- A Python dict with string keys, as used for messages, commands and
actions throughout the backend. -/
abbrev Dict := List (String × JValue)

/-- Dictionary lookup: `d[k]` when present. Models both `k in d` (via
`Option.isSome`) and `d.get(k)`. -/
def jget (d : Dict) (k : String) : Option JValue :=
  match d.find? (fun p => p.1 == k) with
  | some p => some p.2
  | none => none

/-- Python equality test of a stored value against a string literal,
as in `message["type"] == "request"`. -/
def isStr (v : JValue) (s : String) : Bool :=
  match v with
  | .jstr t => t == s
  | _ => false

/-- Python membership test of a stored value in a list of string literals,
as in `action.get("type") in CRITICAL_ACTIONS`. A missing key gives
`none` (Python `None`), which is in no list of strings. -/
def pyMem (v : Option JValue) (xs : List String) : Bool :=
  match v with
  | some w => xs.any (fun s => isStr w s)
  | none => false

/-! ## middleware/message_validator.py -/

/-- Result record returned by the message validator
(dataclass `ValidationResult`, message_validator.py lines 13-17). -/
structure ValidationResult where
  is_valid : Bool
  error_message : Option String := none
  validated_data : Option Dict := none

/-- The four members of the `MessageCategory` enum
(message_validator.py lines 6-11); `MessageCategory(c)` succeeds exactly
when `c` is one of these values. -/
def recognizedCategories : List String :=
  ["architect", "system", "environment", "ui"]

namespace MessageValidator

/-- Embeds `MessageValidator._validate_auth` (lines 55-59): the credential
check is an unimplemented stub that returns `True` for every key. -/
def validate_auth (_api_key : JValue) : Bool :=
  true

/-- Embeds `MessageValidator._validate_architect` (lines 61-81). The
access `message["type"]` can raise `KeyError` when the key is absent,
which the caller catches; that raise is modelled as `Except.error`
(unreachable from `validate_message`, which checks presence first). -/
def validate_architect (message : Dict) : Except String ValidationResult :=
  match jget message "type" with
  | none => Except.error "KeyError: type"
  | some t =>
    if isStr t "request" then
      if (jget message "message").isNone then
        Except.ok ⟨false, some "Missing message content", none⟩
      else if (jget message "metadata").isNone then
        Except.ok ⟨false, some "Missing request metadata", none⟩
      else Except.ok ⟨true, none, some message⟩
    else if isStr t "response" then
      if (jget message "status").isNone then
        Except.ok ⟨false, some "Missing response status", none⟩
      else Except.ok ⟨true, none, some message⟩
    else if isStr t "state_update" then
      if (jget message "state").isNone then
        Except.ok ⟨false, some "Missing state data", none⟩
      else Except.ok ⟨true, none, some message⟩
    else Except.ok ⟨true, none, some message⟩

/-- Embeds `MessageValidator._validate_system` (lines 83-93). -/
def validate_system (message : Dict) : ValidationResult :=
  if (jget message "action").isNone then
    ⟨false, some "Missing system action", none⟩
  else if (jget message "timestamp").isNone then
    ⟨false, some "Missing timestamp", none⟩
  else ⟨true, none, some message⟩

/-- Embeds `MessageValidator._validate_environment` (lines 95-103). -/
def validate_environment (message : Dict) : ValidationResult :=
  if (jget message "state_type").isNone then
    ⟨false, some "Missing state type", none⟩
  else if (jget message "state_data").isNone then
    ⟨false, some "Missing state data", none⟩
  else ⟨true, none, some message⟩

/-- Embeds `MessageValidator._validate_ui` (lines 105-113). -/
def validate_ui (message : Dict) : ValidationResult :=
  if (jget message "action").isNone then
    ⟨false, some "Missing UI action", none⟩
  else if (jget message "data").isNone then
    ⟨false, some "Missing UI data", none⟩
  else ⟨true, none, some message⟩

/-- Embeds `MessageValidator._validate_default` (lines 115-118): the
permissive validator for categories without a dedicated method. -/
def validate_default (message : Dict) : ValidationResult :=
  ⟨true, none, some message⟩

/-- Embeds the `getattr(MessageValidator, "_validate_" + category.value,
_validate_default)` dispatch (lines 43-48). Every enum member has a
dedicated method, so the `validate_default` arm is reachable only for a
category outside the enum, and `validate_message` never passes one. -/
def dispatchValidator (c : String) (message : Dict) :
    Except String ValidationResult :=
  if c == "architect" then validate_architect message
  else if c == "system" then Except.ok (validate_system message)
  else if c == "environment" then Except.ok (validate_environment message)
  else if c == "ui" then Except.ok (validate_ui message)
  else Except.ok (validate_default message)

/-- Embeds the authentication branch condition of `validate_message`
(line 37): an `api_key` field is present and `_validate_auth` rejects it. -/
def authRejected (message : Dict) : Bool :=
  (jget message "api_key").isSome
    && !(validate_auth ((jget message "api_key").getD .jnull))

/-- Renders a stored value the way the f-string
`f"Invalid message category: ..."` does for the error reason; only the
string case is ever inspected by a theorem. -/
def pyShow (v : JValue) : String :=
  match v with
  | .jstr s => s
  | .jnull => "None"
  | .jbool true => "True"
  | .jbool false => "False"
  | .jint n => toString n
  | .jarr _ => "<list>"
  | .jobj _ => "<dict>"

/-- Embeds the category-routing block of `validate_message`
(lines 40-50): `MessageCategory(message["category"])` raises `ValueError`
for an unrecognized value, caught by the inner `except ValueError` which
reports an invalid category; otherwise the category-specific validator
runs, any exception it raises being caught by the outer handler
(lines 52-53). -/
def routeCategory (message : Dict) : ValidationResult :=
  match jget message "category" with
  | none => ⟨false, some "Message category not specified", none⟩
  | some v =>
    match v with
    | .jstr c =>
      if recognizedCategories.contains c then
        match dispatchValidator c message with
        | .ok r => r
        | .error e => ⟨false, some ("Validation error: " ++ e), none⟩
      else ⟨false, some ("Invalid message category: " ++ c), none⟩
    | w => ⟨false, some ("Invalid message category: " ++ pyShow w), none⟩

/-- Embeds `MessageValidator.validate_message` (lines 22-53), the main
validation entry point: required base fields, then the authentication
branch, then category routing. The `isinstance(message, dict)` guard is
discharged by the type of `Dict`. -/
def validate_message (message : Dict) : ValidationResult :=
  if (jget message "type").isNone then
    ⟨false, some "Message type not specified", none⟩
  else if (jget message "category").isNone then
    ⟨false, some "Message category not specified", none⟩
  else if authRejected message then
    ⟨false, some "Invalid authentication", none⟩
  else routeCategory message

/-- Companion definition used only to state that the authentication
branch of `validate_message` is inert: the same function with the branch
of lines 37-38 deleted. -/
def validate_message_sans_auth (message : Dict) : ValidationResult :=
  if (jget message "type").isNone then
    ⟨false, some "Message type not specified", none⟩
  else if (jget message "category").isNone then
    ⟨false, some "Message category not specified", none⟩
  else routeCategory message

end MessageValidator

/-! ## middleware/error_handler.py -/

/-- Embeds `MessageValidator.validate_command` of error_handler.py
(lines 67-71): an outgoing command is well formed when it has the keys
"action" and "parameters". This is the validator the first (shadowed)
definition of `send_command` consults. -/
def validate_command (command : Dict) : Bool :=
  (jget command "action").isSome && (jget command "parameters").isSome

/-! ## core/websocketManager.py

The class body defines `connect`, `send_command` and `start` twice each;
the later definition rebinds the class attribute, so the earlier one is
dead code. The embeddings below follow the effective (second) definitions
and carry the first definitions under a `_first_def` suffix where a claim
cites them. -/

/-- A WebSocket connection object, as held in `self.connection`. The
`closed` flag records that `close()` was called on the object; a closed
object is still truthy in Python, so `if not self.connection` remains
false after `disconnect`. -/
structure Conn where
  id : Nat
  closed : Bool := false

/-- The mutable state of `WebSocketClientManager` (constructor,
websocketManager.py lines 13-22). `is_connected` is the `asyncio.Event`
(set or clear); `message_queue` and `action_queue` are FIFO queues with
the front at the head of the list. -/
structure WSManager where
  uri : String
  api_key : String
  connection : Option Conn := none
  message_queue : List Dict := []
  reconnect_interval : Nat := 5
  is_connected : Bool := false
  autonomous_mode : Bool := false
  action_queue : List Dict := []

/-- Resolves the asynchronous transport effects of one method call:
the outcome of an awaited `websockets.connect` (`some c` on success,
`none` when it raises), whether `connection.send` raises, and the parsed
value produced by `connection.recv` plus `json.loads` (`none` when either
raises). -/
structure TransportOracle where
  connectResult : Option Conn := none
  sendOk : Bool := true
  recvResult : Option JValue := none

/-- The dict `json.dumps`/transport layer failure result
`{"status": "failure", "error": str(e)}` returned by the except branch of
the effective `send_command` (lines 123-125). -/
def failureResult (e : String) : JValue :=
  .jobj [("status", .jstr "failure"), ("error", .jstr e)]

/-- Embeds the EFFECTIVE `connect` (second definition, lines 65-73): on
success it stores the new connection; the except branch only logs, so on
failure the state is returned unchanged — in particular `is_connected` is
never set on success nor cleared on failure, and no exception leaves the
method. -/
def WSManager.connect (m : WSManager) (connectResult : Option Conn) :
    WSManager :=
  match connectResult with
  | some c => { m with connection := some c }
  | none => m

/-- Embeds the SHADOWED first `connect` (lines 24-36): on success it sets
the connection (reading `self.config`, which does not exist on the class —
kept as written); on failure it clears `is_connected` and re-raises, the
boolean recording whether an exception propagates to the caller. Dead
code at runtime; embedded because claims C2/C3 cite it. -/
def WSManager.connect_first_def (m : WSManager) (connectResult : Option Conn) :
    WSManager × Bool :=
  match connectResult with
  | some c => ({ m with connection := some c, is_connected := true }, false)
  | none => ({ m with is_connected := false }, true)

/-- Outcome of one embedded `send_command` call: new state, commands for
which `connection.send` was invoked on a live socket (in call order), and
the returned Python value. -/
structure SendOutcome where
  state : WSManager
  transmitted : List Dict
  result : JValue

/-- Embeds lines 115-122 of the effective `send_command`: serialize the
command, write it to the socket, await and parse the reply. When the
connection is `None`, `self.connection.send` raises `AttributeError`;
that and any send/recv/parse exception is caught by the except branch of
lines 123-125, yielding the failure dict. Returns the commands written to
a live socket and the Python value the method returns. -/
def wireExchange (conn : Option Conn) (o : TransportOracle)
    (command : Dict) : List Dict × Except String JValue :=
  match conn with
  | none =>
    ([], Except.error "AttributeError: NoneType has no attribute send")
  | some _ =>
    if !o.sendOk then
      ([], Except.error "send raised")
    else
      match o.recvResult with
      | none => ([command], Except.error "recv or json.loads raised")
      | some r => ([command], Except.ok r)

/-- Embeds the EFFECTIVE `send_command` (second definition, lines
111-125). No validation of any kind is performed. If `self.connection` is
falsy the method first awaits `connect` (lines 113-114), then runs the
wire exchange of lines 115-122 on whatever connection resulted; a raised
exception is caught by lines 123-125 and turned into the failure dict. -/
def WSManager.send_command (m : WSManager) (o : TransportOracle)
    (command : Dict) : SendOutcome :=
  let m1 := if m.connection.isNone then m.connect o.connectResult else m
  let w := wireExchange m1.connection o command
  { state := m1, transmitted := w.1,
    result :=
      match w.2 with
      | .ok r => r
      | .error e => failureResult e }

/-- Embeds the SHADOWED first `send_command` (lines 38-63): it consults
`MessageValidator.validate_command` before doing anything else and
returns the rejection dict without touching the transport when the
command is malformed; on the happy path it additionally checks
`validate_response` on the parsed reply, the except branch catching the
`ValueError` raised on a bad reply. Dead code at runtime; embedded
because claim C2 cites it. -/
def WSManager.send_command_first_def (m : WSManager) (o : TransportOracle)
    (command : Dict) : SendOutcome :=
  if !(validate_command command) then
    { state := m, transmitted := [],
      result := .jobj [("status", .jstr "error"),
                       ("message", .jstr "Invalid command format")] }
  else
    let m1 := if m.connection.isNone then m.connect o.connectResult else m
    let w := wireExchange m1.connection o command
    { state := m1, transmitted := w.1,
      result :=
        match w.2 with
        | .ok (.jobj fields) =>
          if (jget fields "status").isSome then .jobj fields
          else failureResult "Invalid response format from Unity"
        | .ok _ => failureResult "TypeError: argument is not iterable"
        | .error e => failureResult e }

/-- Embeds `disconnect` (lines 146-149): when a connection object is
present, `close()` is awaited on it and an info line is logged. The
method neither resets `self.connection` to `None` nor clears the
`is_connected` event, and it sends no goodbye message. -/
def WSManager.disconnect (m : WSManager) : WSManager :=
  match m.connection with
  | some c => { m with connection := some { c with closed := true } }
  | none => m

/-- The critical-action table of `_requires_user_approval`
(line 143). -/
def CRITICAL_ACTIONS : List String :=
  ["delete_environment", "reset_scene", "modify_core_settings"]

/-- Embeds `_requires_user_approval` (lines 141-144):
`action.get("type") in CRITICAL_ACTIONS`, where a missing key yields
`None`, which is in no list of strings. -/
def WSManager.requires_user_approval (action : Dict) : Bool :=
  pyMem (jget action "type") CRITICAL_ACTIONS

/-- Outcome of one iteration of the autonomous action processor:
the new state, the action handed to `send_command` if the gate admitted
one, the commands written to the socket, and the value `send_command`
returned. -/
structure AutoStepOutcome where
  state : WSManager
  dispatched : Option Dict
  transmitted : List Dict
  result : Option JValue

/-- Embeds one iteration of the `_autonomous_action_processor` loop
(lines 127-139): dequeue an action (the `get()` suspends on an empty
queue, modelled as a no-op outcome); if the gate passes it, hand it to
`send_command`; otherwise log a warning and drop it from the autonomous
path. -/
def WSManager.autonomous_step (m : WSManager) (o : TransportOracle) :
    AutoStepOutcome :=
  match m.action_queue with
  | [] => { state := m, dispatched := none, transmitted := [], result := none }
  | a :: rest =>
    let m1 := { m with action_queue := rest }
    if WSManager.requires_user_approval a then
      { state := m1, dispatched := none, transmitted := [], result := none }
    else
      let s := m1.send_command o a
      { state := s.state, dispatched := some a,
        transmitted := s.transmitted, result := some s.result }

/-- Embeds the body of the try in `_process_message_queue` (line 105):
`await self._send_message(message)`. The class (and the whole repository)
defines no method or attribute `_send_message`, so in Python this
attribute access raises `AttributeError` on every call; the embedding
returns that error unconditionally because that is what the code does. -/
def WSManager.send_message_attempt (_m : WSManager) (_message : Dict) :
    Except String (List Dict) :=
  Except.error "AttributeError: no attribute _send_message"

/-- Embeds one completed iteration of the `_process_message_queue` loop
(lines 99-109): dequeue a message, wait on the `is_connected` event, try
`_send_message`, and on any exception put the message back at the tail.
`none` means the iteration cannot complete in the given state — the
`get()` suspends on an empty queue, and `is_connected.wait()` suspends
while the event is clear — so in such a state nothing is sent. The
returned list holds the commands transmitted during the iteration. -/
def WSManager.process_queue_step (m : WSManager) :
    Option (WSManager × List Dict) :=
  match m.message_queue with
  | [] => none
  | msg :: rest =>
    if m.is_connected then
      match WSManager.send_message_attempt { m with message_queue := rest } msg with
      | .ok sent => some ({ m with message_queue := rest }, sent)
      | .error _ => some ({ m with message_queue := rest ++ [msg] }, [])
    else none

/-! ## Helper lemmas -/

/-- The authentication branch condition of `validate_message` can never
hold, because `_validate_auth` returns `True` unconditionally. -/
theorem authRejected_eq_false (message : Dict) :
    MessageValidator.authRejected message = false := by
  simp [MessageValidator.authRejected, MessageValidator.validate_auth]

/-- The effective `connect` only ever writes `self.connection`; the
message queue is untouched. -/
theorem connect_preserves_message_queue (m : WSManager) (r : Option Conn) :
    (m.connect r).message_queue = m.message_queue := by
  cases r <;> rfl

/-- Characterizes the Python membership test used by the gate: it holds
exactly when the looked-up value is one of the listed strings. -/
theorem pyMem_iff_str (v : Option JValue) (xs : List String) :
    pyMem v xs = true ↔ ∃ t, v = some (JValue.jstr t) ∧ t ∈ xs := by
  cases v with
  | none => simp [pyMem]
  | some w =>
    simp only [pyMem, List.any_eq_true]
    constructor
    · rintro ⟨s, hs, hstr⟩
      cases w <;> simp [isStr] at hstr
      exact ⟨s, by rw [hstr], hs⟩
    · rintro ⟨t, hteq, htc⟩
      obtain rfl : w = JValue.jstr t := by
        simpa using hteq
      exact ⟨t, htc, by simp [isStr]⟩

/-- When both base fields are present, `validate_message` reduces to the
category-routing block (the authentication branch being inert). -/
theorem validate_message_eq_route (message : Dict)
    (htype : (jget message "type").isSome = true)
    (hcat : (jget message "category").isSome = true) :
    MessageValidator.validate_message message
      = MessageValidator.routeCategory message := by
  obtain ⟨v, hv⟩ := Option.isSome_iff_exists.mp htype
  obtain ⟨w, hw⟩ := Option.isSome_iff_exists.mp hcat
  simp [MessageValidator.validate_message, hv, hw, authRejected_eq_false]

/-! ## Claim C9 -/

/-- Claim C9: for every message containing an api_key field, whatever its
value, the credential check returns true; the authentication branch of
`validate_message` never fires, so validation never rejects a message on
authentication grounds — `validate_message` coincides with the same
function with the branch deleted. -/
theorem C9_auth_vacuously_permissive :
    (∀ k : JValue, MessageValidator.validate_auth k = true)
      ∧ (∀ message : Dict, MessageValidator.authRejected message = false)
      ∧ (∀ message : Dict,
          MessageValidator.validate_message message
            = MessageValidator.validate_message_sans_auth message) := by
  refine ⟨fun _ => rfl, authRejected_eq_false, fun message => ?_⟩
  simp [MessageValidator.validate_message,
    MessageValidator.validate_message_sans_auth, authRejected_eq_false]

/-! ## Claim C7 -/

/-- A structurally complete message whose category is not one of the four
recognized ones. -/
def msgC7 : Dict :=
  [("category", JValue.jstr "custom"), ("type", JValue.jstr "x")]

/-- Claim C7 is false as stated: a message with both fields present but
an unrecognized category is reported INVALID, because
`MessageCategory(message["category"])` raises `ValueError` before the
`getattr` fallback can select the permissive default validator. -/
theorem C7_counterexample :
    (MessageValidator.validate_message msgC7).is_valid = false
      ∧ (MessageValidator.validate_message msgC7).error_message
          = some "Invalid message category: custom" :=
  ⟨rfl, rfl⟩

/-- Claim C7 as amended: for every message whose category and type fields
are both present but whose category is not a recognized one, validation
rejects the message with reason naming the invalid category; the
permissive default validator never runs for such messages. -/
theorem C7_unknown_category_rejected (message : Dict) (c : String)
    (htype : (jget message "type").isSome = true)
    (hcat : jget message "category" = some (JValue.jstr c))
    (hc : c ∉ recognizedCategories) :
    MessageValidator.validate_message message
      = ⟨false, some ("Invalid message category: " ++ c), none⟩ := by
  rw [validate_message_eq_route message htype (by rw [hcat]; rfl)]
  unfold MessageValidator.routeCategory
  rw [hcat]
  simp [hc]

/-- Claim C7 witness: the amended statement evaluated on a concrete
message with category "custom". -/
theorem C7_witness :
    MessageValidator.validate_message msgC7
      = ⟨false, some ("Invalid message category: " ++ "custom"), none⟩ :=
  C7_unknown_category_rejected msgC7 "custom" rfl rfl (by decide)

/-! ## Claim C8 -/

/-- A system message that passes the structural pass and carries a
timestamp but no action field. -/
def msgC8 : Dict :=
  [("category", JValue.jstr "system"), ("type", JValue.jstr "status"),
   ("timestamp", JValue.jstr "2024-01-01T00:00:00")]

/-- Claim C8 is false as stated: this system message passes the
structural pass and has a timestamp, yet validation rejects it, because
`_validate_system` also requires an action field. -/
theorem C8_counterexample :
    (jget msgC8 "timestamp").isSome = true
      ∧ (MessageValidator.validate_message msgC8).is_valid = false :=
  ⟨rfl, rfl⟩

/-- Claim C8 as amended: a message with category "system" that passes the
structural pass is reported valid if and only if it contains BOTH an
action field and a timestamp field. -/
theorem C8_system_valid_iff_action_and_timestamp (message : Dict)
    (htype : (jget message "type").isSome = true)
    (hcat : jget message "category" = some (JValue.jstr "system")) :
    (MessageValidator.validate_message message).is_valid = true
      ↔ ((jget message "action").isSome = true
          ∧ (jget message "timestamp").isSome = true) := by
  rw [validate_message_eq_route message htype (by rw [hcat]; rfl)]
  have hsys : MessageValidator.routeCategory message
      = MessageValidator.validate_system message := by
    unfold MessageValidator.routeCategory
    rw [hcat]
    rfl
  rw [hsys]
  cases ha : jget message "action" <;> cases ht : jget message "timestamp" <;>
    simp [MessageValidator.validate_system, ha, ht]

/-- A system message carrying both an action and a timestamp. -/
def msgC8w : Dict :=
  [("category", JValue.jstr "system"), ("type", JValue.jstr "status"),
   ("action", JValue.jstr "ping"), ("timestamp", JValue.jstr "t")]

/-- Claim C8 witness: the amended statement evaluated on a concrete
system message carrying both required fields. -/
theorem C8_witness :
    (MessageValidator.validate_message msgC8w).is_valid = true :=
  (C8_system_valid_iff_action_and_timestamp msgC8w rfl rfl).mpr ⟨rfl, rfl⟩

/-! ## Claim C1 -/

/-- Claim C1: an autonomous action whose type field is
"delete_environment" — or any member of the critical set — is never handed
to `send_command` by the autonomous processor and nothing is written to
the transport for it: the gate classifies it as requiring approval and
the processor withholds it. -/
theorem C1_critical_action_withheld (m : WSManager) (o : TransportOracle)
    (a : Dict) (rest : List Dict) (t : String)
    (hq : m.action_queue = a :: rest)
    (ht : jget a "type" = some (JValue.jstr t))
    (hc : t ∈ CRITICAL_ACTIONS) :
    (m.autonomous_step o).dispatched = none
      ∧ (m.autonomous_step o).transmitted = [] := by
  have hreq : WSManager.requires_user_approval a = true := by
    unfold WSManager.requires_user_approval
    exact (pyMem_iff_str _ _).mpr ⟨t, ht, hc⟩
  unfold WSManager.autonomous_step
  rw [hq]
  simp [hreq]

/-- A manager in autonomous mode whose action queue holds one critical
action. -/
def mC1 : WSManager :=
  { uri := "ws://localhost:8080", api_key := "key", autonomous_mode := true,
    connection := some { id := 1 },
    action_queue := [[("type", JValue.jstr "delete_environment")]] }

/-- Claim C1 witness: the theorem evaluated on a concrete
delete_environment action at the head of the queue, with a live
connection and a healthy transport. -/
theorem C1_witness :
    (mC1.autonomous_step { recvResult := some (.jobj []) }).dispatched = none
      ∧ (mC1.autonomous_step { recvResult := some (.jobj []) }).transmitted
          = [] :=
  C1_critical_action_withheld mC1 { recvResult := some (.jobj []) }
    [("type", JValue.jstr "delete_environment")] [] "delete_environment"
    rfl rfl (by decide)

/-! ## Claim C10 -/

/-- Claim C10: the gate returns true exactly when the value stored under
the type key is one of the three critical strings; and an action carrying
no type key at all is classified as ordinary — the processor hands it
straight to `send_command` without approval. -/
theorem C10_gate_characterization :
    (∀ action : Dict,
        WSManager.requires_user_approval action = true
          ↔ ∃ t, jget action "type" = some (JValue.jstr t)
              ∧ t ∈ CRITICAL_ACTIONS)
      ∧ (∀ (m : WSManager) (o : TransportOracle) (a : Dict)
            (rest : List Dict),
          m.action_queue = a :: rest → jget a "type" = none →
          (m.autonomous_step o).dispatched = some a) := by
  constructor
  · intro action
    unfold WSManager.requires_user_approval
    exact pyMem_iff_str _ _
  · intro m o a rest hq ht
    have hreq : WSManager.requires_user_approval a = false := by
      unfold WSManager.requires_user_approval
      rw [ht]
      rfl
    unfold WSManager.autonomous_step
    rw [hq]
    simp [hreq]

/-- An action that names its kind under "action_type" rather than
"type". -/
def aC10 : Dict :=
  [("action_type", JValue.jstr "delete_environment"),
   ("parameters", JValue.jobj [])]

/-- A manager in autonomous mode whose action queue holds `aC10`. -/
def mC10 : WSManager :=
  { uri := "ws://localhost:8080", api_key := "key", autonomous_mode := true,
    connection := some { id := 2 }, action_queue := [aC10] }

/-- Claim C10 witness: the characterization evaluated concretely — a
reset_scene action trips the gate, while an action whose kind hides under
a different key is auto-dispatched to `send_command`. -/
theorem C10_witness :
    WSManager.requires_user_approval [("type", JValue.jstr "reset_scene")]
        = true
      ∧ (mC10.autonomous_step { recvResult := some (.jobj []) }).dispatched
          = some aC10 :=
  ⟨(C10_gate_characterization.1 [("type", JValue.jstr "reset_scene")]).mpr
      ⟨"reset_scene", rfl, by decide⟩,
    C10_gate_characterization.2 mC10 { recvResult := some (.jobj []) }
      aC10 [] rfl rfl⟩

/-! ## Claim C2 -/

/-- A command missing both keys `validate_command` requires, so the
repository rates it malformed. -/
def badCommandC2 : Dict := [("type", JValue.jstr "place_model")]

/-- A manager with a live connection. -/
def mC2 : WSManager :=
  { uri := "ws://localhost:8080", api_key := "key",
    connection := some { id := 3 } }

/-- A healthy transport: send succeeds and a parsed reply arrives. -/
def oC2 : TransportOracle :=
  { recvResult := some (.jobj [("status", .jstr "success")]) }

/-- Claim C2 fails on the effective code: the command is rated invalid by
the command validator of the repository, yet the effective `send_command`
transmits it anyway and returns the reply, while the shadowed first
definition would have rejected it without touching the transport. -/
theorem C2_invalid_command_transmitted :
    validate_command badCommandC2 = false
      ∧ (mC2.send_command oC2 badCommandC2).transmitted = [badCommandC2]
      ∧ (mC2.send_command oC2 badCommandC2).result
          = .jobj [("status", .jstr "success")]
      ∧ (mC2.send_command_first_def oC2 badCommandC2).transmitted = []
      ∧ (mC2.send_command_first_def oC2 badCommandC2).result
          = .jobj [("status", .jstr "error"),
                   ("message", .jstr "Invalid command format")] :=
  ⟨rfl, rfl, rfl, rfl, rfl⟩

/-! ## Claim C3 -/

/-- A manager whose `is_connected` event is set while its connection has
dropped to `None`. -/
def mC3 : WSManager :=
  { uri := "ws://localhost:8080", api_key := "key", is_connected := true }

/-- A fresh manager straight out of the constructor. -/
def mC3fresh : WSManager :=
  { uri := "ws://localhost:8080", api_key := "key" }

/-- Claim C3 fails on the effective code: when the endpoint is
unreachable, the effective `connect` swallows the exception and returns
with the state bit-for-bit unchanged — no error reaches the caller and a
previously set `is_connected` stays set. It never touches `is_connected`
even on success, so the Connected state is not observable either way; the
shadowed first definition is the one that cleared the event and
re-raised. -/
theorem C3_connect_failure_silent :
    mC3.connect none = mC3
      ∧ (mC3.connect none).is_connected = true
      ∧ (mC3fresh.connect (some { id := 4 })).is_connected = false
      ∧ (WSManager.connect_first_def mC3 none).1.is_connected = false
      ∧ (WSManager.connect_first_def mC3 none).2 = true :=
  ⟨rfl, rfl, rfl, rfl, rfl⟩

/-! ## Claim C4 -/

/-- A connected manager: event set, open socket. -/
def mC4 : WSManager :=
  { uri := "ws://localhost:8080", api_key := "key",
    connection := some { id := 5 }, is_connected := true }

/-- Claim C4 fails on the code: after `disconnect()` returns, the channel
still reports connected — the `is_connected` event is never cleared and
`self.connection` still holds the (closed) socket object, which is truthy
in Python. Only the socket itself is closed. -/
theorem C4_disconnect_leaves_connected_state :
    (mC4.disconnect).is_connected = true
      ∧ (mC4.disconnect).connection = some { id := 5, closed := true } :=
  ⟨rfl, rfl⟩

/-! ## Claim C5 -/

/-- A well-formed command for the direct-send counterexample. -/
def cmdC5 : Dict :=
  [("action", JValue.jstr "place_model"), ("parameters", JValue.jobj [])]

/-- A manager holding a live socket while the `is_connected` event is
clear. -/
def mC5 : WSManager :=
  { uri := "ws://localhost:8080", api_key := "key",
    connection := some { id := 6 }, is_connected := false }

/-- Claim C5 is false as stated: with the `is_connected` event clear,
`send_command` still writes the command to the transport — it neither
enqueues to the message queue nor consults the connection state. -/
theorem C5_counterexample :
    mC5.is_connected = false
      ∧ (mC5.send_command { recvResult := some (.jobj []) } cmdC5).transmitted
          = [cmdC5]
      ∧ (mC5.send_command { recvResult := some (.jobj []) } cmdC5).state.message_queue
          = [] :=
  ⟨rfl, rfl, rfl⟩

/-- Claim C5 as amended: `send_command` never enqueues (the message queue
is untouched) and transmits immediately on a live socket regardless of
the `is_connected` event; the queue drain loop, for its part, cannot
complete an iteration (and so transmits nothing) while the event is
clear, and once the event is set every completed iteration re-enqueues
its message at the tail and transmits nothing, because the send helper
`_send_message` does not exist — so queued messages are never transmitted
at all, in FIFO order or otherwise. -/
theorem C5_send_bypasses_queue_and_queue_never_sends :
    (∀ (m : WSManager) (o : TransportOracle) (cmd : Dict),
        (m.send_command o cmd).state.message_queue = m.message_queue)
      ∧ (∀ (m : WSManager) (o : TransportOracle) (cmd : Dict) (c : Conn)
            (r : JValue),
          m.connection = some c → o.sendOk = true →
          o.recvResult = some r →
          (m.send_command o cmd).transmitted = [cmd])
      ∧ (∀ m : WSManager, m.is_connected = false →
          m.process_queue_step = none)
      ∧ (∀ (m : WSManager) (msg : Dict) (rest : List Dict),
          m.is_connected = true → m.message_queue = msg :: rest →
          m.process_queue_step
            = some ({ m with message_queue := rest ++ [msg] }, [])) := by
  refine ⟨?_, ?_, ?_, ?_⟩
  · intro m o cmd
    show (if m.connection.isNone then m.connect o.connectResult
          else m).message_queue = m.message_queue
    split
    · exact connect_preserves_message_queue m o.connectResult
    · rfl
  · intro m o cmd c r hc hs hr
    unfold WSManager.send_command
    simp [hc, wireExchange, hs, hr]
  · intro m h
    unfold WSManager.process_queue_step
    cases m.message_queue <;> simp [h]
  · intro m msg rest hc hq
    unfold WSManager.process_queue_step
    rw [hq]
    simp [hc, WSManager.send_message_attempt]

/-- A connected manager with one queued message, used to instantiate the
amended claim. -/
def mC5w : WSManager :=
  { uri := "ws://localhost:8080", api_key := "key",
    connection := some { id := 7 }, is_connected := true,
    message_queue := [cmdC5] }

/-- Claim C5 witness: the amended statement evaluated concretely — the
direct send transmits on a live socket, and the connected drain loop
cycles its queued message without transmitting. -/
theorem C5_witness :
    (mC5.send_command { recvResult := some (.jobj []) } cmdC5).transmitted
        = [cmdC5]
      ∧ mC5w.process_queue_step
          = some ({ mC5w with message_queue := [] ++ [cmdC5] }, []) :=
  ⟨C5_send_bypasses_queue_and_queue_never_sends.2.1 mC5
      { recvResult := some (.jobj []) } cmdC5 { id := 6 } (.jobj [])
      rfl rfl rfl,
    C5_send_bypasses_queue_and_queue_never_sends.2.2.2 mC5w cmdC5 []
      rfl rfl⟩

/-! ## Claim C6 -/

/-- A well-formed command sitting in the message queue. -/
def msgC6 : Dict :=
  [("action", JValue.jstr "place_model"), ("parameters", JValue.jobj [])]

/-- A connected manager whose message queue holds exactly `msgC6`. -/
def mC6 : WSManager :=
  { uri := "ws://localhost:8080", api_key := "key",
    connection := some { id := 8 }, is_connected := true,
    message_queue := [msgC6] }

/-- One observable drain iteration as a state transformer: the state
after the iteration completes, unchanged when no iteration can
complete. -/
def queueIterate (m : WSManager) : WSManager :=
  match m.process_queue_step with
  | some p => p.1
  | none => m

/-- Claim C6 fails on the code: a failed transmission is re-enqueued at
the tail UNCHANGED — the queued entry carries no attempt count, there is
no cap, no command is ever dropped, and no delivery error is surfaced.
With a single queued message the drain iteration is a fixed point of the
state, so the message is silently retried forever: after any number of
iterations the queue still holds the identical message and nothing has
been transmitted. -/
theorem C6_requeue_unbounded_and_silent :
    mC6.process_queue_step = some (mC6, [])
      ∧ ∀ n : Nat, queueIterate^[n] mC6 = mC6 :=
  ⟨rfl, fun n => Function.iterate_fixed (rfl : queueIterate mC6 = mC6) n⟩

end DigitalArchitects
